import Mathlib

set_option maxRecDepth 4000

/-!
Shallow embedding of the R-Type-Server wire protocols and their handlers.

Bytes are modelled as natural numbers; a packet is a `List Nat`.  Multi-byte
fields are big-endian, mirroring the byte pushes and shifted reads of the C++
code.  Unsigned wrap-around is written as an explicit `% 2^w` at the places
where the C++ performs a narrowing cast.  The crypto primitives (HMAC-SHA256,
HKDF) are black boxes, passed as function parameters.  Maps
(`std::unordered_map`) are modelled as association lists with first-match
lookup and in-place replacement.
-/

namespace RTypeSrv

/-! ### Byte-level helpers -/

/-- Big-endian bytes of a 16-bit value, as pushed by the C++ builders. -/
def be16 (v : Nat) : List Nat := [v / 2 ^ 8 % 256, v % 256]

/-- Big-endian bytes of a 32-bit value, as pushed by the C++ builders. -/
def be32 (v : Nat) : List Nat :=
  [v / 2 ^ 24 % 256, v / 2 ^ 16 % 256, v / 2 ^ 8 % 256, v % 256]

/-- Big-endian bytes of a 64-bit value (the eight `(v >> (56 - 8*i)) & 0xFF` pushes). -/
def be64 (v : Nat) : List Nat :=
  [v / 2 ^ 56 % 256, v / 2 ^ 48 % 256, v / 2 ^ 40 % 256, v / 2 ^ 32 % 256,
   v / 2 ^ 24 % 256, v / 2 ^ 16 % 256, v / 2 ^ 8 % 256, v % 256]

/-- The 32-bit big-endian read `(data[i] << 24) | (data[i+1] << 16) | (data[i+2] << 8) | data[i+3]`. -/
def be32at (data : List Nat) (i : Nat) : Nat :=
  (data.getD i 0) <<< 24 ||| (data.getD (i + 1) 0) <<< 16 |||
    (data.getD (i + 2) 0) <<< 8 ||| data.getD (i + 3) 0

/-! ### Association lists (model of `std::unordered_map`) -/

/-- Lookup in an association list (first match). -/
def alistGet {κ α : Type} [DecidableEq κ] (m : List (κ × α)) (k : κ) : Option α :=
  match m with
  | [] => none
  | (k₁, v) :: rest => if k₁ = k then some v else alistGet rest k

/-- Lookup with a default, modelling `operator[]` reads on a map that
default-constructs missing entries. -/
def alistGetD {κ α : Type} [DecidableEq κ] (m : List (κ × α)) (k : κ) (d : α) : α :=
  (alistGet m k).getD d

/-- Insert or replace a binding, modelling `map[k] = v`. -/
def alistSet {κ α : Type} [DecidableEq κ] (m : List (κ × α)) (k : κ) (v : α) : List (κ × α) :=
  match m with
  | [] => [(k, v)]
  | (k₁, v₁) :: rest => if k₁ = k then (k, v) :: rest else (k₁, v₁) :: alistSet rest k v

/-! ### Game Server UDP protocol constants (`Protocol.hpp`, `GameServerUDPPacketParser.hpp`) -/

def GSPCOL_MAGIC : Nat := 0x4254

namespace GameServerUDP

def HEADER_MAGIC : Nat := GSPCOL_MAGIC
def VERSION : Nat := 1
def MAX_PACKET_SIZE : Nat := 1200
def HEADER_SIZE : Nat := 21
def MAX_PAYLOAD_SIZE : Nat := MAX_PACKET_SIZE - HEADER_SIZE

/-- `GSPcol::CMD` values. -/
def CMD_INPUT : Nat := 1
def CMD_SNAPSHOT : Nat := 2
def CMD_PING : Nat := 4
def CMD_PONG : Nat := 5
def CMD_JOIN : Nat := 7
def CMD_CHALLENGE : Nat := 9
def CMD_AUTH : Nat := 10
def CMD_AUTH_OK : Nat := 11
def CMD_RESYNC : Nat := 12
def CMD_FRAGMENT : Nat := 13

/-- `GSPcol::FLAGS` values. -/
def FLAG_CONN : Nat := 1
def FLAG_RELIABLE : Nat := 2
def FLAG_FRAGMENT : Nat := 4

/-- `GSPcol::CHANNEL` values. -/
def CH_UU : Nat := 0
def CH_RO : Nat := 3

/-- `GameServerUDPPacketParser::buildHeader`: the 21-byte header
`[MAGIC:2][VERSION:1][FLAGS:1][SEQ:4][ACKBASE:4][ACKBITS:1][CHANNEL:1][SIZE:2][ID:4][CMD:1]`. -/
def buildHeader (cmd flags seq ackBase ackBits channel size clientId : Nat) : List Nat :=
  [HEADER_MAGIC / 2 ^ 8 % 256, HEADER_MAGIC % 256, VERSION, flags % 256] ++
    be32 seq ++ be32 ackBase ++ [ackBits % 256, channel % 256] ++
    be16 size ++ be32 clientId ++ [cmd % 256]

/-- `GameServerUDPPacketParser::buildPongResponse`. -/
def buildPongResponse (seq ackBase ackBits clientId : Nat) : List Nat :=
  buildHeader CMD_PONG FLAG_CONN seq ackBase ackBits CH_UU HEADER_SIZE clientId

/-- `GameServerUDPPacketParser::buildAuthOkPacket`: `[HEADER:21][ID:4][SESSION_KEY:8]`. -/
def buildAuthOkPacket (seq ackBase ackBits clientId : Nat) (sessionKey : List Nat) : List Nat :=
  buildHeader CMD_AUTH_OK FLAG_RELIABLE seq ackBase ackBits CH_RO ((HEADER_SIZE + 4 + 8) % 2 ^ 16)
    clientId ++ be32 clientId ++ sessionKey

/-- Modelled from the spec: `buildChallengeWithCookie` has no definition under the
source tree; its declaration in `GameServerUDPPacketParser.hpp` documents the format
`[HEADER:21][TIMESTAMP:8][COOKIE:32]` on the RO channel with a 40-byte payload. -/
def buildChallengeWithCookie (seq ackBase ackBits clientId timestamp : Nat)
    (cookie : List Nat) : List Nat :=
  buildHeader CMD_CHALLENGE FLAG_RELIABLE seq ackBase ackBits CH_RO (HEADER_SIZE + 8 + 32)
    clientId ++ be64 timestamp ++ cookie

/-- `GameServerUDPPacketParser::buildFragment`:
`[HEADER:21][BASE_SEQ:4][TOTAL_SIZE:4][FRAGMENT_OFFSET:4][FRAGMENT_DATA:N]`;
`none` models the `std::runtime_error` thrown when the body exceeds
`MAX_PAYLOAD_SIZE - 12` bytes. -/
def buildFragment (seq ackBase ackBits clientId baseSeq totalSize offset : Nat)
    (fragmentData : List Nat) : Option (List Nat) :=
  if fragmentData.length > MAX_PAYLOAD_SIZE - 12 then none
  else
    some (buildHeader CMD_FRAGMENT (FLAG_RELIABLE ||| FLAG_FRAGMENT) seq ackBase ackBits CH_RO
      ((HEADER_SIZE + 12 + fragmentData.length) % 2 ^ 16) clientId ++
      be32 baseSeq ++ be32 totalSize ++ be32 offset ++ fragmentData)

/-- The fragmentation loop of `buildSnapshot`: starting at `offset`, repeatedly slice
`chunk_size = min (MAX_PAYLOAD_SIZE - 16) (stateData.size() - offset)` bytes.  The
fuel argument bounds the iteration count; each pass advances `offset` by at least
one byte, so `stateData.length + 1` fuel is never exhausted. -/
def snapshotChunksAux (stateData : List Nat) : Nat → Nat → List (Nat × List Nat)
  | _, 0 => []
  | offset, fuel + 1 =>
    if offset < stateData.length then
      let chunk_size := min (MAX_PAYLOAD_SIZE - 16) (stateData.length - offset)
      (offset, (stateData.drop offset).take chunk_size) ::
        snapshotChunksAux stateData (offset + chunk_size) fuel
    else []

/-- The `(offset, chunk)` slices produced by the `buildSnapshot` while-loop. -/
def snapshotChunks (stateData : List Nat) : List (Nat × List Nat) :=
  snapshotChunksAux stateData 0 (stateData.length + 1)

/-- The `fragments` vector built inside `buildSnapshot`: fragment `i` is built with
sequence `seq + i`, base sequence `seq`, declared total `stateData.size() + 4`, and
the slice at its offset. -/
def buildSnapshotFragments (seq ackBase ackBits clientId : Nat)
    (stateData : List Nat) : List (Option (List Nat)) :=
  (snapshotChunks stateData).enum.map fun p =>
    buildFragment ((seq + p.1) % 2 ^ 32) ackBase ackBits clientId seq
      ((stateData.length + 4) % 2 ^ 32) (p.2.1 % 2 ^ 32) p.2.2

/-- `GameServerUDPPacketParser::buildSnapshot`.  When the state exceeds
`MAX_PAYLOAD_SIZE - 4` bytes the C++ builds the whole `fragments` vector and then
returns `fragments[0]` alone; otherwise it returns the single
`[HEADER:21][SNAPSHOT_SEQ:4][STATE_DATA:N]` packet. -/
def buildSnapshot (seq ackBase ackBits clientId snapshotSeq : Nat)
    (stateData : List Nat) : Option (List Nat) :=
  if stateData.length > MAX_PAYLOAD_SIZE - 4 then
    match buildSnapshotFragments seq ackBase ackBits clientId stateData with
    | [] => none
    | f :: _ => f
  else
    some (buildHeader CMD_SNAPSHOT FLAG_RELIABLE seq ackBase ackBits CH_RO
      ((HEADER_SIZE + 4 + stateData.length) % 2 ^ 16) clientId ++
      be32 snapshotSeq ++ stateData)

/-- Proof helper: the offsets produced by the `buildSnapshot` loop depend only on
the payload length. -/
def snapshotOffs (len : Nat) : Nat → Nat → List Nat
  | _, 0 => []
  | offset, fuel + 1 =>
    if offset < len then
      offset :: snapshotOffs len (offset + min (MAX_PAYLOAD_SIZE - 16) (len - offset)) fuel
    else []

/-- The failing input of the S5 scenario: a 3000-byte snapshot payload. -/
def data3000 : List Nat := List.replicate 3000 7

end GameServerUDP

/-! ### Game server session state (`GameServer.hpp`) -/

def MAX_PARSE_ERRORS : Nat := 3
def MAX_AUTH_ATTEMPTS : Nat := 3
def AUTH_TIMEOUT : Nat := 5

inductive AuthState
  | NONE
  | CHALLENGED
  | AUTHENTICATED
deriving DecidableEq

/-- `GameServer::ClientState` (the 32-byte challenge and session-key arrays are
default-constructed; the model initialises them to zero bytes). -/
structure ClientState where
  authState : AuthState := .NONE
  sessionKey : List Nat := List.replicate 32 0
deriving DecidableEq

/-- `GameServer::AuthChallenge` (steady-clock timestamps are abstract naturals). -/
structure AuthChallenge where
  timestamp : Nat := 0
  attempts : Nat := 0
deriving DecidableEq

/-- `GameServer::LatencyMetrics`; RTT fields are `std::chrono::microseconds`
(64-bit signed), initialised to the extremal values used by the C++. -/
structure LatencyMetrics where
  min_rtt : Int := 9223372036854775807
  max_rtt : Int := -9223372036854775808
  avg_rtt : Int := 0
  samples : Nat := 0
  last_ping : Nat := 0
deriving DecidableEq

/-- The per-peer tables of `GameServer` that the UDP handlers touch.  Handles and
client ids are naturals; each `std::unordered_map` is an association list. -/
structure GSState where
  client_ids : List (Nat × Nat) := []
  client_sequence_nums : List (Nat × Nat) := []
  last_received_seq : List (Nat × Nat) := []
  sack_bits : List (Nat × Nat) := []
  client_states : List (Nat × ClientState) := []
  auth_states : List (Nat × AuthChallenge) := []
  latency_metrics : List (Nat × LatencyMetrics) := []
  send_spans : List (Nat × List (List Nat)) := []
deriving DecidableEq

/-- The baked-in fallback secret `"r-type-shared-secret"` of
`GameServer::handleUDPJoin` and `GameServer::handleUDPAuthResponse`, as bytes. -/
def builtinSecret : List Nat := "r-type-shared-secret".toList.map Char.toNat

/-- The secret-selection code shared by both auth handlers:
`env_secret ? std::string(env_secret) : std::string("r-type-shared-secret")`,
where `env` models `std::getenv("R_TYPE_SHARED_SECRET")`. -/
def authSecret (env : Option (List Nat)) : List Nat := env.getD builtinSecret

/-- The cookie truncation of `handleUDPJoin`: the first 32 MAC bytes, zero-padded
on the right when the MAC is shorter than 32 bytes. -/
def cookieClamp (mac : List Nat) : List Nat :=
  if 32 ≤ mac.length then mac.take 32
  else mac ++ List.replicate (32 - mac.length) 0

/-- `GameServer::handleUDPJoin`.  `hmac` models `utils::Crypto::hmacSHA256`; `env`
models the `R_TYPE_SHARED_SECRET` environment lookup; `ip` is the 16 peer IP bytes
resolved from the endpoint tables; `sysNow` is the system clock in seconds and
`steadyNow` the steady clock.  `offset` points past the 21-byte header. -/
def handleUDPJoin (hmac : List Nat → List Nat → List Nat) (env : Option (List Nat))
    (ip : List Nat) (sysNow steadyNow : Nat) (st : GSState) (handle : Nat)
    (data : List Nat) (offset clientId : Nat) : GSState :=
  if offset + 6 > data.length then st
  else
    let payload_client_id := be32at data offset
    if payload_client_id ≠ clientId then st
    else
      let nonce := data.getD (offset + 4) 0
      let secret := authSecret env
      let timestamp := sysNow
      let mac_data := ip ++ [nonce] ++ be64 timestamp
      let cookie := cookieClamp (hmac secret mac_data)
      let st1 : GSState := { st with
        client_ids := alistSet st.client_ids clientId handle
        client_sequence_nums := alistSet st.client_sequence_nums handle 0
        last_received_seq := alistSet st.last_received_seq handle 0
        sack_bits := alistSet st.sack_bits handle 0 }
      let st2 : GSState := { st1 with
        client_states := alistSet st1.client_states handle
          ({ authState := .CHALLENGED, sessionKey := List.replicate 32 0 })
        auth_states := alistSet st1.auth_states handle
          ({ timestamp := steadyNow, attempts := 0 }) }
      let seqUsed := alistGetD st2.client_sequence_nums handle 0
      let response := GameServerUDP.buildChallengeWithCookie seqUsed
        (alistGetD st2.last_received_seq handle 0) (alistGetD st2.sack_bits handle 0)
        clientId timestamp cookie
      { st2 with
        client_sequence_nums := alistSet st2.client_sequence_nums handle ((seqUsed + 1) % 2 ^ 32)
        send_spans := alistSet st2.send_spans handle
          (alistGetD st2.send_spans handle [] ++ [response]) }

/-- `GameServer::_recordAuthAttempt`: bump the attempt counter (a `uint8_t`) and
refresh the challenge timestamp, when an auth entry exists. -/
def recordAuthAttempt (steadyNow : Nat) (st : GSState) (handle : Nat) : GSState :=
  match alistGet st.auth_states handle with
  | none => st
  | some a =>
    let entry : AuthChallenge := { timestamp := steadyNow, attempts := (a.attempts + 1) % 256 }
    { st with auth_states := alistSet st.auth_states handle entry }

/-- The cookie test of the `handleUDPAuthResponse` window loop:
`mac.size() >= 32 && CRYPTO_memcmp(mac, cookie, 32) == 0`. -/
def cookieCheck (hmac : List Nat → List Nat → List Nat) (secret ip : List Nat)
    (nonce : Nat) (cookie : List Nat) (ts : Nat) : Bool :=
  let mac := hmac secret (ip ++ [nonce] ++ be64 ts)
  decide (32 ≤ mac.length ∧ mac.take 32 = cookie)

/-- The loop `for (dt = 0; dt <= AUTH_TIMEOUT; ++dt)` of `handleUDPAuthResponse`:
try `ts = now_s - dt` (64-bit wrapping) in increasing `dt` order and stop at the
first cookie match.  `fuel` counts the remaining iterations. -/
def authScanGo (check : Nat → Bool) (now_s : Nat) : Nat → Nat → Option Nat
  | _, 0 => none
  | dt, fuel + 1 =>
    let ts := (now_s + 2 ^ 64 - dt) % 2 ^ 64
    if check ts then some ts else authScanGo check now_s (dt + 1) fuel

def authScan (check : Nat → Bool) (now_s : Nat) : Option Nat :=
  authScanGo check now_s 0 (AUTH_TIMEOUT + 1)

/-- `GameServer::handleUDPAuthResponse`.  `dk` models `utils::Crypto::deriveKey`
(HKDF-SHA256); the other parameters are as in `handleUDPJoin`.  On a cookie match
the first 8 derived bytes overwrite the session-key head, the state becomes
`AUTHENTICATED` and an AUTH_OK is queued; otherwise only the attempt counter is
recorded. -/
def handleUDPAuthResponse (hmac dk : List Nat → List Nat → List Nat)
    (env : Option (List Nat)) (ip : List Nat) (sysNow steadyNow : Nat) (st : GSState)
    (handle : Nat) (data : List Nat) (offset clientId : Nat) : GSState :=
  if offset + 1 + 32 > data.length then st
  else
    match alistGet st.client_states handle with
    | none => st
    | some cs =>
      if cs.authState ≠ .CHALLENGED then st
      else
        let client_nonce := data.getD offset 0
        let received_cookie := (data.drop (offset + 1)).take 32
        let secret := authSecret env
        match authScan (cookieCheck hmac secret ip client_nonce received_cookie) sysNow with
        | none => recordAuthAttempt steadyNow st handle
        | some found_ts =>
          let salt := be64 found_ts
          let derived := dk secret salt
          let cs2 : ClientState := { cs with
            authState := .AUTHENTICATED
            sessionKey := derived.take 8 ++ cs.sessionKey.drop 8 }
          let st1 : GSState := { st with
            client_states := alistSet st.client_states handle cs2 }
          let seqUsed := alistGetD st1.client_sequence_nums handle 0
          let auth_ok := GameServerUDP.buildAuthOkPacket seqUsed
            (alistGetD st1.last_received_seq handle 0) (alistGetD st1.sack_bits handle 0)
            clientId (cs2.sessionKey.take 8)
          { st1 with
            client_sequence_nums :=
              alistSet st1.client_sequence_nums handle ((seqUsed + 1) % 2 ^ 32)
            send_spans := alistSet st1.send_spans handle
              (alistGetD st1.send_spans handle [] ++ [auth_ok]) }

/-- The session state produced by a successful AUTH with matching timestamp `t`. -/
def authAcceptedState (dk : List Nat → List Nat → List Nat) (env : Option (List Nat))
    (st : GSState) (handle cid : Nat) (cs : ClientState) (t : Nat) : GSState :=
  let cs2 : ClientState := { cs with
    authState := .AUTHENTICATED
    sessionKey := (dk (authSecret env) (be64 t)).take 8 ++ cs.sessionKey.drop 8 }
  let st1 : GSState := { st with client_states := alistSet st.client_states handle cs2 }
  let seqUsed := alistGetD st1.client_sequence_nums handle 0
  let auth_ok := GameServerUDP.buildAuthOkPacket seqUsed
    (alistGetD st1.last_received_seq handle 0) (alistGetD st1.sack_bits handle 0)
    cid (cs2.sessionKey.take 8)
  { st1 with
    client_sequence_nums := alistSet st1.client_sequence_nums handle ((seqUsed + 1) % 2 ^ 32)
    send_spans := alistSet st1.send_spans handle
      (alistGetD st1.send_spans handle [] ++ [auth_ok]) }

/-- `GameServer::handleUDPInput`.  The `(type, value)` pair loop only logs (its
game-state update is a TODO in the source); the handler then stores the 32-bit
value read from raw bytes 5..8 of the datagram as `last_received_seq` and shifts
a set bit into the SACK byte. -/
def handleUDPInput (st : GSState) (handle : Nat) (data : List Nat) : GSState :=
  { st with
    last_received_seq := alistSet st.last_received_seq handle
      ((data.getD 5 0) <<< 24 ||| (data.getD 6 0) <<< 16 |||
        (data.getD 7 0) <<< 8 ||| data.getD 8 0)
    sack_bits := alistSet st.sack_bits handle
      ((alistGetD st.sack_bits handle 0 <<< 1 ||| 1) % 256) }

/-- `GameServer::handleUDPPong`: update the RTT statistics when a matching ping
timestamp exists; the `operator[]` access inserts a default entry either way. -/
def handleUDPPong (steadyNow : Nat) (st : GSState) (handle : Nat) : GSState :=
  let metrics := alistGetD st.latency_metrics handle ({} : LatencyMetrics)
  if metrics.last_ping ≠ 0 then
    let rtt : Int := (steadyNow : Int) - (metrics.last_ping : Int)
    let m2 : LatencyMetrics := { metrics with
      min_rtt := min metrics.min_rtt rtt
      max_rtt := max metrics.max_rtt rtt
      avg_rtt := (metrics.avg_rtt * (metrics.samples : Int) + rtt) / ((metrics.samples : Int) + 1)
      samples := metrics.samples + 1 }
    { st with latency_metrics := alistSet st.latency_metrics handle m2 }
  else
    { st with latency_metrics := alistSet st.latency_metrics handle metrics }

/-! ### The UDP dispatch of `GameServer::_parsePackets` -/

/-- The header checks of `_parsePackets`: magic from raw bytes 0..1 (a `uint16_t`),
version byte at index 2. -/
def hdrMagic (p : List Nat) : Nat := ((p.getD 0 0) <<< 8 ||| p.getD 1 0) % 2 ^ 16

def hdrVersion (p : List Nat) : Nat := p.getD 2 0

/-- The declared total-size field at bytes 14..15, read big-endian (`ntohs`). -/
def hdrSizeField (p : List Nat) : Nat := ((p.getD 14 0) <<< 8 ||| p.getD 15 0) % 2 ^ 16

/-- The auth gate used for INPUT and RESYNC:
`it != _client_states.end() && it->second.authState == AuthState::AUTHENTICATED`. -/
def isAuthenticated (client_states : List (Nat × ClientState)) (handle : Nat) : Bool :=
  match alistGet client_states handle with
  | some c => decide (c.authState = .AUTHENTICATED)
  | none => false

/-- The command switch of `GameServer::_parsePackets`: JOIN, AUTH, PING and PONG
reach their handlers unconditionally; INPUT and RESYNC only when the auth gate
passes; unknown commands fall to the logging default. -/
def gateCmd (auth : Bool) (cmd : Nat) : Option Nat :=
  if cmd = GameServerUDP.CMD_JOIN then some cmd
  else if cmd = GameServerUDP.CMD_AUTH then some cmd
  else if cmd = GameServerUDP.CMD_INPUT then (if auth then some cmd else none)
  else if cmd = GameServerUDP.CMD_PING then some cmd
  else if cmd = GameServerUDP.CMD_PONG then some cmd
  else if cmd = GameServerUDP.CMD_RESYNC then (if auth then some cmd else none)
  else none

/-- The dispatch decision of `GameServer::_parsePackets` for one datagram: `some c`
when command `c` reaches its handler, `none` when the datagram is dropped. -/
def dispatchedCmd (client_states : List (Nat × ClientState)) (handle : Nat)
    (p : List Nat) : Option Nat :=
  if p.length < 21 then none
  else if hdrMagic p ≠ GSPCOL_MAGIC then none
  else if hdrVersion p ≠ 1 then none
  else gateCmd (isAuthenticated client_states handle) (p.getD 20 0)

/-! ### Gateway (stream) protocol -/

def GWPCOL_MAGIC : Nat := 0x4257

namespace Gateway

/-- Modelled from the spec: the `Gateway.hpp` header is not under the source
tree; the spec fixes the parse-error quota at 3 and the accepted version window
at `[1, 1]`. -/
def GW_MAX_PARSE_ERRORS : Nat := 3
def GW_MINIMUM_VERSION : Nat := 1
def GW_MAXIMUM_VERSION : Nat := 1

/-- A game-server key: 16 IP bytes and a port (`Gateway::IP`). -/
abbrev GSKey := List Nat × Nat

/-- The gateway tables touched by the modelled handlers. -/
structure GWState where
  gs_registry : List (GSKey × Nat) := []
  gs_addr_to_handle : List (GSKey × Nat) := []
  occupancy_cache : List (GSKey × Nat) := []
  send_spans : List (Nat × List (List Nat)) := []
  parseErrors : List (Nat × Nat) := []
deriving DecidableEq

/-- `Gateway::PacketParser::parseGSKey`: 16 IP bytes at `offset`, then a
big-endian port. -/
def parseGSKey (data : List Nat) (offset : Nat) : GSKey :=
  ((data.drop offset).take 16,
    ((data.getD (offset + 16) 0) <<< 8 ||| data.getD (offset + 17) 0) % 2 ^ 16)

/-- `Gateway::PacketParser::buildHeader`: `[0x42, 0x57, 0x01, flags, cmd]`. -/
def buildHeader (cmd flags : Nat) : List Nat := [0x42, 0x57, 0x01, flags, cmd]

/-- `Gateway::PacketParser::buildSimpleResponse` (flags default to zero). -/
def buildSimpleResponse (cmd : Nat) : List Nat := buildHeader cmd 0

/-- The occupancy used by `Gateway::findLeastOccupiedGS`: the cache value when
present, zero otherwise. -/
def effectiveOccupancy (st : GWState) (key : GSKey) : Nat :=
  alistGetD st.occupancy_cache key 0

/-- `Gateway::handleGSRegistration`.  `offset` points at the command byte; `none`
models the `std::runtime_error` on a short packet.  The result carries the new
state and the reply command (21 = GS_OK, 22 = GS_KO): KO exactly when the key was
already in `_gs_registry`; the registry value is set to 1 in both cases, and the
handle association is recorded only for a fresh key. -/
def handleGSRegistration (st : GWState) (handle : Nat) (data : List Nat)
    (offset : Nat) : Option (GWState × Nat) :=
  if offset + 1 + 16 + 2 > data.length then none
  else
    let key := parseGSKey data (offset + 1)
    let already_registered := (alistGet st.gs_registry key).isSome
    let st1 : GWState := { st with gs_registry := alistSet st.gs_registry key 1 }
    let st2 : GWState :=
      if already_registered then st1
      else { st1 with gs_addr_to_handle := alistSet st1.gs_addr_to_handle key handle }
    let response_cmd := if already_registered then 22 else 21
    let response := buildSimpleResponse response_cmd
    let spans := alistSet st2.send_spans handle (alistGetD st2.send_spans handle [] ++ [response])
    some ({ st2 with send_spans := spans }, response_cmd)

/-- The outcomes of `Gateway::PacketParser::getHeader` together with the offset
at which the buffer position stands when the function throws or returns (the
`getNextVal` reads advance it before each check). -/
inductive HdrResult
  | incomplete
  | badMagic
  | badVersion
  | ok (cmd : Nat)
deriving DecidableEq

/-- `Gateway::PacketParser::getHeader` on a buffer at `offset`: refuse with fewer
than 5 bytes; then check magic (2 bytes) and version (1 byte); skip flags and
return the command byte without consuming it.  The second component is the
offset after the reads performed before the outcome. -/
def getHeader (buf : List Nat) (offset : Nat) : HdrResult × Nat :=
  if offset + 5 > buf.length then (.incomplete, offset)
  else
    let magic := ((buf.getD offset 0) <<< 8 ||| buf.getD (offset + 1) 0) % 2 ^ 16
    if magic ≠ GWPCOL_MAGIC then (.badMagic, offset + 2)
    else
      let ver := buf.getD (offset + 2) 0
      if ver < GW_MINIMUM_VERSION ∨ GW_MAXIMUM_VERSION < ver then (.badVersion, offset + 3)
      else (.ok (buf.getD (offset + 4) 0), offset + 4)

/-- One pass of `Gateway::_parsePackets` over a peer buffer whose head does not
decode: the `catch` increments the parse-error counter, breaks, and the buffer is
erased only up to the consumed offset.  Returns the new state, whether the quota
throw (peer eviction) fires, and the remaining buffer.  When the header decodes,
the pass is not an error path and the state is returned unchanged (command
dispatch is modelled separately). -/
def parseStep (st : GWState) (handle : Nat) (buf : List Nat) : GWState × Bool × List Nat :=
  match getHeader buf 0 with
  | (.ok _, _) => (st, false, buf)
  | (_, off) =>
    let errs := alistGetD st.parseErrors handle 0 + 1
    let st1 : GWState := { st with parseErrors := alistSet st.parseErrors handle errs }
    (st1, GW_MAX_PARSE_ERRORS ≤ errs, buf.drop off)

end Gateway

/-! ### Concrete instance data used by the claim theorems -/

/-- A well-formed JOIN datagram: 21 header bytes, then the 32-bit client id 7,
a nonce and a version byte. -/
def c2JoinData : List Nat := List.replicate 21 0 ++ be32 7 ++ [0xAB, 1]

/-- A 21-byte PING datagram whose declared size field reads 9999. -/
def c3Packet : List Nat :=
  [0x42, 0x54, 1, 0, 0, 0, 0, 0, 0, 0, 0, 0, 0, 0, 0x27, 0x0F, 0, 0, 0, 0, 4]

/-- A 21-byte PING datagram whose declared size field is correct. -/
def c3wPacket : List Nat :=
  [0x42, 0x54, 1, 0, 0, 0, 0, 0, 0, 0, 0, 0, 0, 0, 0, 21, 0, 0, 0, 0, 4]

/-- A 21-byte PONG datagram. -/
def c4PongPacket : List Nat :=
  [0x42, 0x54, 1, 0, 0, 0, 0, 0, 0, 0, 0, 0, 0, 0, 0, 21, 0, 0, 0, 0, 5]

/-- A 21-byte INPUT datagram. -/
def c4InputPacket : List Nat :=
  [0x42, 0x54, 1, 0, 0, 0, 0, 0, 0, 0, 0, 0, 0, 0, 0, 21, 0, 0, 0, 0, 1]

/-- Concrete instance data for the AUTH window theorem: a constant MAC equal to
the echoed cookie, so the scan succeeds. -/
def c5Hmac : List Nat → List Nat → List Nat := fun _ _ => List.replicate 32 1

def c5Dk : List Nat → List Nat → List Nat := fun _ _ => List.replicate 32 2

def c5CS : ClientState := { authState := .CHALLENGED, sessionKey := List.replicate 32 0 }

def c5St : GSState :=
  { client_states := [(1, c5CS)], auth_states := [(1, { timestamp := 10, attempts := 0 })] }

def c5Data : List Nat := List.replicate 21 0 ++ [0xAB] ++ List.replicate 32 1

/-- A session standing in the Authenticated state. -/
def c6St : GSState :=
  { client_states := [(1, { authState := .AUTHENTICATED, sessionKey := List.replicate 32 0 })] }

def c6JoinData : List Nat := List.replicate 21 0 ++ be32 7 ++ [0xCD, 1]

/-- The S4 scenario sequence numbers: 998..1004 with 1002 missing. -/
def c7Seqs : List Nat := [998, 999, 1000, 1001, 1003, 1004]

/-- An INPUT datagram header carrying sequence number `s`. -/
def c7InputPacket (s : Nat) : List Nat := GameServerUDP.buildHeader 1 0 s 0 0 0 21 7

/-- The session state after the six INPUT datagrams arrive in order. -/
def c7Final : GSState :=
  c7Seqs.foldl (fun st s => handleUDPInput st 1 (c7InputPacket s)) {}

/-- The S1 registration frame: header, command 20, 16 IP bytes, port 8080. -/
def c8Data : List Nat :=
  [0x42, 0x57, 1, 0, 20] ++ (List.replicate 10 0 ++ [0xFF, 0xFF, 0x7F, 0, 0, 1]) ++ [0x1F, 0x90]

/-- The gateway state after the first registration of `c8Data` over handle 5. -/
def c8St1 : Gateway.GWState :=
  ((Gateway.handleGSRegistration {} 5 c8Data 4).map Prod.fst).getD {}

def c9Buf : List Nat := [0x42]

def c9St1 : Gateway.GWState := (Gateway.parseStep {} 4 c9Buf).1

def c9St2 : Gateway.GWState := (Gateway.parseStep c9St1 4 c9Buf).1

/-! ### Lemmas about association lists -/

theorem alistGet_set_self {κ α : Type} [DecidableEq κ] (m : List (κ × α)) (k : κ) (v : α) :
    alistGet (alistSet m k v) k = some v := by
  induction m with
  | nil => simp [alistGet, alistSet]
  | cons hd tl ih =>
    obtain ⟨k₁, v₁⟩ := hd
    by_cases hk : k₁ = k
    · simp [alistGet, alistSet, hk]
    · simp [alistGet, alistSet, hk, ih]

/-! ### Lemmas about the snapshot fragmentation loop -/

namespace GameServerUDP

theorem snapshotChunksAux_offsets (data : List Nat) (fuel off : Nat) :
    (snapshotChunksAux data off fuel).map Prod.fst = snapshotOffs data.length off fuel := by
  induction fuel generalizing off with
  | zero => rfl
  | succ n ih =>
    simp only [snapshotChunksAux, snapshotOffs]
    split
    · simp [ih]
    · rfl

/-- The chunk bodies concatenate back to the sliced payload suffix. -/
theorem snapshotChunksAux_flatten (data : List Nat) (fuel : Nat) : ∀ off,
    data.length - off < fuel →
    ((snapshotChunksAux data off fuel).map Prod.snd).flatten = data.drop off := by
  induction fuel with
  | zero => intro off h; exact absurd h (Nat.not_lt_zero _)
  | succ n ih =>
    intro off h
    simp only [snapshotChunksAux]
    split
    · rename_i hlt
      have hc : 1 ≤ min (MAX_PAYLOAD_SIZE - 16) (data.length - off) :=
        le_min (by decide) (by omega)
      rw [List.map_cons, List.flatten_cons, ih _ (by omega)]
      have hdd : data.drop (off + min (MAX_PAYLOAD_SIZE - 16) (data.length - off)) =
          (data.drop off).drop (min (MAX_PAYLOAD_SIZE - 16) (data.length - off)) := by
        rw [List.drop_drop, Nat.add_comm]
      rw [hdd, List.take_append_drop]
    · rename_i hge
      simp only [List.map_nil, List.flatten_nil]
      rw [eq_comm, List.drop_eq_nil_iff]
      omega

/-- On the fragmentation path, `buildSnapshot` returns exactly the first built
fragment: base sequence `seq`, declared total `payload + 4`, offset 0, and the
first slice as body. -/
theorem buildSnapshot_frag_head (seq aB bits cid ssq : Nat) (data : List Nat)
    (h : MAX_PAYLOAD_SIZE - 4 < data.length) :
    buildSnapshot seq aB bits cid ssq data =
      buildFragment ((seq + 0) % 2 ^ 32) aB bits cid seq ((data.length + 4) % 2 ^ 32) (0 % 2 ^ 32)
        ((data.drop 0).take (min (MAX_PAYLOAD_SIZE - 16) (data.length - 0))) := by
  have h0 : 0 < data.length := by
    have : (1175 : Nat) ≤ MAX_PAYLOAD_SIZE - 4 := by decide
    omega
  unfold buildSnapshot
  rw [if_pos h]
  unfold buildSnapshotFragments snapshotChunks
  obtain ⟨m, hm⟩ : ∃ m, data.length = m + 1 := ⟨data.length - 1, by omega⟩
  rw [hm]
  simp only [snapshotChunksAux]
  rw [if_pos (by omega : 0 < data.length)]
  rw [← hm]
  simp [List.enum_cons]

/-- C1: the claim fails on the code.  Evaluating `buildSnapshot` at a 3000-byte
payload: the loop slices at 1163-byte boundaries (`MAX_PAYLOAD_SIZE - 16`), so the
built fragments sit at offsets {0, 1163, 2326}, not {0, 1167, 2334}; the three
chunk bodies do cover the payload, but the function returns only `fragments[0]`
-- a single FRAGMENT frame -- and its declared total 3004 = payload + 4 exceeds
the 3000 bytes that the fragment bodies jointly carry, so the emitted fragments
can never reassemble to the input. -/
theorem C1_snapshot_fragmentation :
    ((snapshotChunks data3000).map Prod.fst = [0, 1163, 2326])
    ∧ (((snapshotChunks data3000).map Prod.snd).flatten = data3000)
    ∧ (buildSnapshot 100 0 0 7 1 data3000 =
        buildFragment 100 0 0 7 100 3004 0 (data3000.take 1163))
    ∧ (data3000.length = 3000)
    ∧ (([0, 1163, 2326] : List Nat) ≠ [0, 1167, 2334])
    ∧ ((3004 : Nat) ≠ 3000) := by
  have hlen : data3000.length = 3000 := List.length_replicate 3000 7
  refine ⟨?_, ?_, ?_, hlen, by decide, by decide⟩
  · rw [snapshotChunks, snapshotChunksAux_offsets, hlen]
    decide
  · rw [snapshotChunks, snapshotChunksAux_flatten data3000 _ 0 (by omega), List.drop_zero]
  · have h := buildSnapshot_frag_head 100 0 0 7 1 data3000 (by rw [hlen]; decide)
    rw [hlen] at h
    rw [h, List.drop_zero]
    norm_num [MAX_PAYLOAD_SIZE, MAX_PACKET_SIZE, HEADER_SIZE]

end GameServerUDP

/-! ### Characterisation of the UDP dispatch -/

theorem gateCmd_eq_some (auth : Bool) (cmd c : Nat) :
    gateCmd auth cmd = some c ↔
      (c = cmd ∧ (c = 7 ∨ c = 10 ∨ c = 4 ∨ c = 5 ∨ ((c = 1 ∨ c = 12) ∧ auth = true))) := by
  unfold gateCmd
  unfold GameServerUDP.CMD_JOIN GameServerUDP.CMD_AUTH GameServerUDP.CMD_INPUT
    GameServerUDP.CMD_PING GameServerUDP.CMD_PONG GameServerUDP.CMD_RESYNC
  split_ifs <;> simp_all <;> omega

/-- A datagram reaches a handler exactly when it is at least a header long, has
the right magic and version, and carries a known command, with INPUT and RESYNC
additionally gated on the auth state.  No condition relates the declared size
field to anything. -/
theorem dispatchedCmd_eq_some (cs : List (Nat × ClientState)) (h : Nat) (p : List Nat)
    (c : Nat) :
    dispatchedCmd cs h p = some c ↔
      (¬ p.length < 21 ∧ hdrMagic p = GSPCOL_MAGIC ∧ hdrVersion p = 1 ∧ c = p.getD 20 0 ∧
        (c = 7 ∨ c = 10 ∨ c = 4 ∨ c = 5 ∨ ((c = 1 ∨ c = 12) ∧ isAuthenticated cs h = true))) := by
  unfold dispatchedCmd
  split_ifs with h1 h2 h3
  · simp [h1]
  · simp [h1, h2]
  · simp [h1, h2, h3]
  · rw [not_not] at h2 h3
    rw [gateCmd_eq_some]
    simp [h1, h2, h3]

/-! ### C2: shared-secret selection -/

/-- C2: the claim fails on the code.  With `R_TYPE_SHARED_SECRET` absent the JOIN
handler does not refuse: it processes the datagram and queues a CHALLENGE, and
the HMAC key it uses is the baked-in fallback `"r-type-shared-secret"` (made
visible here by an HMAC model that echoes its key, so the cookie is the clamped
fallback secret). -/
theorem C2_fallback_secret_refutes :
    authSecret none = builtinSecret
    ∧ (alistGetD (handleUDPJoin (fun k _ => k) none (List.replicate 16 0) 100 0 {} 1
          c2JoinData 21 7).send_spans 1 []
        = [GameServerUDP.buildChallengeWithCookie 0 0 0 7 100 (cookieClamp builtinSecret)])
    ∧ cookieClamp builtinSecret ≠ [] := by
  refine ⟨rfl, by decide, by decide⟩

/-- C2 (amended): no startup failure is modelled because none exists; the secret
used by the JOIN cookie computation is the environment value when present and the
baked-in `"r-type-shared-secret"` otherwise, and a valid JOIN always queues a
CHALLENGE whose cookie is keyed by that selected secret. -/
theorem C2_secret_selection :
    (∀ s, authSecret (some s) = s) ∧ (authSecret none = builtinSecret)
    ∧ (∀ hmac env ip sysNow steadyNow st handle data offset clientId,
        offset + 6 ≤ data.length → be32at data offset = clientId →
        (handleUDPJoin hmac env ip sysNow steadyNow st handle data offset clientId).send_spans
          = alistSet st.send_spans handle (alistGetD st.send_spans handle [] ++
              [GameServerUDP.buildChallengeWithCookie 0 0 0 clientId sysNow
                (cookieClamp (hmac (authSecret env)
                  (ip ++ [data.getD (offset + 4) 0] ++ be64 sysNow)))])) := by
  refine ⟨fun s => rfl, rfl, ?_⟩
  intro hmac env ip sysNow steadyNow st handle data offset clientId hlen hid
  simp only [handleUDPJoin]
  rw [if_neg (by omega)]
  rw [if_neg (by simp [hid])]
  simp [alistGetD, alistGet_set_self]

/-- C2 amended, applied at a concrete JOIN with the environment variable absent. -/
theorem C2_secret_selection_witness :
    (handleUDPJoin (fun k _ => k) none (List.replicate 16 0) 100 0 {} 1
        c2JoinData 21 7).send_spans
      = alistSet ({} : GSState).send_spans 1 (alistGetD ({} : GSState).send_spans 1 [] ++
          [GameServerUDP.buildChallengeWithCookie 0 0 0 7 100
            (cookieClamp ((fun (k _ : List Nat) => k) (authSecret none)
              (List.replicate 16 0 ++ [c2JoinData.getD 25 0] ++ be64 100)))]) :=
  C2_secret_selection.2.2 (fun k _ => k) none (List.replicate 16 0) 100 0 {} 1
    c2JoinData 21 7 (by decide) (by decide)

/-! ### C3: declared-size validation -/

/-- C3: the claim fails on the code.  A datagram whose declared total size (9999)
differs from its payload length (21) is still dispatched to the PING handler:
`_parsePackets` parses the size field but never compares it to the datagram
length. -/
theorem C3_size_mismatch_dispatched :
    dispatchedCmd [] 1 c3Packet = some 4
    ∧ c3Packet.length = 21 ∧ hdrSizeField c3Packet = 9999 ∧ (9999 : Nat) ≠ 21 := by
  refine ⟨by decide, by decide, by decide, by decide⟩

/-- C3 (amended): every dispatched datagram satisfies magic = 0x4254 and
version = 1, but the declared total-size field is ignored: the dispatch decision
depends only on the length, magic, version and command observables, so datagrams
whose size field differs from the payload length are dispatched all the same. -/
theorem C3_accept_checks :
    (∀ cs h p c, dispatchedCmd cs h p = some c →
        hdrMagic p = GSPCOL_MAGIC ∧ hdrVersion p = 1)
    ∧ (∀ cs h p c, dispatchedCmd cs h p = some c →
        ∀ q : List Nat, q.length = p.length → hdrMagic q = hdrMagic p →
          hdrVersion q = hdrVersion p → q.getD 20 0 = p.getD 20 0 →
          dispatchedCmd cs h q = some c) := by
  constructor
  · intro cs h p c hd
    have := (dispatchedCmd_eq_some cs h p c).mp hd
    exact ⟨this.2.1, this.2.2.1⟩
  · intro cs h p c hd q hlen hmag hver hcmd
    have hp := (dispatchedCmd_eq_some cs h p c).mp hd
    refine (dispatchedCmd_eq_some cs h q c).mpr ?_
    rw [hlen, hmag, hver, hcmd]
    exact hp

/-- C3 amended, applied to a PING whose size field is correct. -/
theorem C3_accept_checks_witness :
    hdrMagic c3wPacket = GSPCOL_MAGIC ∧ hdrVersion c3wPacket = 1 :=
  C3_accept_checks.1 [] 1 c3wPacket 4 (by decide)

/-! ### C4: the auth gate -/

/-- C4: the claim fails on the code.  PONG (command 5, not among JOIN, AUTH,
PING) is dispatched to `handleUDPPong` for a peer with no client state at all --
the switch gates only INPUT and RESYNC on the auth state. -/
theorem C4_pong_unauthenticated_dispatched :
    dispatchedCmd [] 2 c4PongPacket = some 5
    ∧ isAuthenticated [] 2 = false
    ∧ (5 : Nat) ∉ [7, 10, 4] := by
  refine ⟨by decide, by decide, by decide⟩

/-- C4 (amended): INPUT and RESYNC are dispatched only for Authenticated peers,
but PONG is dispatched regardless of auth state; its handler touches only the
latency-metrics table (RTT diagnostics), leaving every other session table
unchanged. -/
theorem C4_auth_gate :
    (∀ cs h p, dispatchedCmd cs h p = some GameServerUDP.CMD_INPUT →
        isAuthenticated cs h = true)
    ∧ (∀ cs h p, dispatchedCmd cs h p = some GameServerUDP.CMD_RESYNC →
        isAuthenticated cs h = true)
    ∧ (∀ cs h (p : List Nat), 21 ≤ p.length → hdrMagic p = GSPCOL_MAGIC →
        hdrVersion p = 1 → p.getD 20 0 = GameServerUDP.CMD_PONG →
        dispatchedCmd cs h p = some GameServerUDP.CMD_PONG)
    ∧ (∀ steadyNow st h,
        (handleUDPPong steadyNow st h).client_states = st.client_states
        ∧ (handleUDPPong steadyNow st h).auth_states = st.auth_states
        ∧ (handleUDPPong steadyNow st h).send_spans = st.send_spans
        ∧ (handleUDPPong steadyNow st h).client_ids = st.client_ids
        ∧ (handleUDPPong steadyNow st h).client_sequence_nums = st.client_sequence_nums
        ∧ (handleUDPPong steadyNow st h).last_received_seq = st.last_received_seq
        ∧ (handleUDPPong steadyNow st h).sack_bits = st.sack_bits) := by
  refine ⟨?_, ?_, ?_, ?_⟩
  · intro cs h p hd
    have := (dispatchedCmd_eq_some cs h p GameServerUDP.CMD_INPUT).mp hd
    rcases this.2.2.2.2 with h7 | h10 | h4 | h5 | ⟨_, ha⟩ <;>
      first | exact ha | exact absurd ‹_› (by decide)
  · intro cs h p hd
    have := (dispatchedCmd_eq_some cs h p GameServerUDP.CMD_RESYNC).mp hd
    rcases this.2.2.2.2 with h7 | h10 | h4 | h5 | ⟨_, ha⟩ <;>
      first | exact ha | exact absurd ‹_› (by decide)
  · intro cs h p hlen hmag hver hcmd
    exact (dispatchedCmd_eq_some cs h p GameServerUDP.CMD_PONG).mpr
      ⟨by omega, hmag, hver, hcmd.symm, by right; right; right; left; rfl⟩
  · intro steadyNow st h
    by_cases hp : (alistGetD st.latency_metrics h ({} : LatencyMetrics)).last_ping ≠ 0 <;>
      simp [handleUDPPong, hp]

/-- C4 amended, applied at a concrete gated INPUT dispatch and a concrete PONG. -/
theorem C4_auth_gate_witness :
    isAuthenticated [(3, ({ authState := .AUTHENTICATED } : ClientState))] 3 = true
    ∧ dispatchedCmd [] 2 c4PongPacket = some GameServerUDP.CMD_PONG :=
  ⟨C4_auth_gate.1 [(3, { authState := .AUTHENTICATED })] 3 c4InputPacket (by decide),
   C4_auth_gate.2.2.1 [] 2 c4PongPacket (by decide) (by decide) (by decide) (by decide)⟩

/-! ### C5: the AUTH cookie window -/

/-- The 64-bit wrapping subtraction `now_s - dt` agrees with truncated
subtraction inside the representable range. -/
theorem wsub64_eq (now i : Nat) (h1 : i ≤ now) (h2 : now < 2 ^ 64) :
    (now + 2 ^ 64 - i) % 2 ^ 64 = now - i := by
  have hs : now + 2 ^ 64 - i = 2 ^ 64 + (now - i) := by omega
  rw [hs, Nat.add_mod_left]
  exact Nat.mod_eq_of_lt (by omega)

/-- A successful scan returns a timestamp that passes the check and lies at some
tried distance below `now`. -/
theorem authScanGo_eq_some (check : Nat → Bool) (now : Nat) : ∀ fuel dt t,
    authScanGo check now dt fuel = some t →
      check t = true ∧ ∃ i, i < fuel ∧ t = (now + 2 ^ 64 - (dt + i)) % 2 ^ 64 := by
  intro fuel
  induction fuel with
  | zero => intro dt t h; exact absurd h (by simp [authScanGo])
  | succ n ih =>
    intro dt t h
    simp only [authScanGo] at h
    split at h
    · cases h
      exact ⟨by assumption, 0, by omega, by rw [Nat.add_zero]⟩
    · obtain ⟨hc, i, hi, ht⟩ := ih (dt + 1) t h
      exact ⟨hc, i + 1, by omega, by rw [ht]; ring_nf⟩

/-- The scan succeeds exactly when some tried distance passes the check. -/
theorem authScanGo_isSome_iff (check : Nat → Bool) (now : Nat) : ∀ fuel dt,
    (authScanGo check now dt fuel).isSome = true ↔
      ∃ i, i < fuel ∧ check ((now + 2 ^ 64 - (dt + i)) % 2 ^ 64) = true := by
  intro fuel
  induction fuel with
  | zero => intro dt; simp [authScanGo]
  | succ n ih =>
    intro dt
    simp only [authScanGo]
    split
    · rename_i hc
      simp only [Option.isSome_some, true_iff]
      exact ⟨0, by omega, by rw [Nat.add_zero]; exact hc⟩
    · rename_i hc
      rw [ih (dt + 1)]
      constructor
      · rintro ⟨i, hi, hckk⟩
        exact ⟨i + 1, by omega, by rw [show dt + (i + 1) = dt + 1 + i by ring]; exact hckk⟩
      · rintro ⟨i, hi, hckk⟩
        match i, hckk with
        | 0, hckk => rw [Nat.add_zero] at hckk; exact absurd hckk hc
        | i + 1, hckk =>
          exact ⟨i, by omega, by rw [show dt + 1 + i = dt + (i + 1) by ring]; exact hckk⟩

/-- The window form of the scan condition: under sane clock bounds the scan
succeeds exactly when some timestamp in `[now - AUTH_TIMEOUT, now]` passes. -/
theorem authScan_isSome_iff_window (check : Nat → Bool) (now : Nat)
    (h1 : AUTH_TIMEOUT ≤ now) (h2 : now < 2 ^ 64) :
    (authScan check now).isSome = true ↔
      ∃ t, now - AUTH_TIMEOUT ≤ t ∧ t ≤ now ∧ check t = true := by
  rw [authScan, authScanGo_isSome_iff]
  constructor
  · rintro ⟨i, hi, hc⟩
    rw [Nat.zero_add] at hc
    rw [wsub64_eq now i (by omega) h2] at hc
    exact ⟨now - i, by omega, by omega, hc⟩
  · rintro ⟨t, hta, htb, hc⟩
    refine ⟨now - t, by omega, ?_⟩
    rw [Nat.zero_add, wsub64_eq now (now - t) (by omega) h2,
      Nat.sub_sub_self htb]
    exact hc

/-- The attempt recording touches only the auth-challenge table. -/
theorem recordAuthAttempt_spec (snow : Nat) (st : GSState) (handle : Nat) :
    (recordAuthAttempt snow st handle).client_states = st.client_states
    ∧ (recordAuthAttempt snow st handle).send_spans = st.send_spans
    ∧ (recordAuthAttempt snow st handle).client_ids = st.client_ids
    ∧ (recordAuthAttempt snow st handle).client_sequence_nums = st.client_sequence_nums
    ∧ (recordAuthAttempt snow st handle).last_received_seq = st.last_received_seq
    ∧ (recordAuthAttempt snow st handle).sack_bits = st.sack_bits
    ∧ (∀ a, alistGet st.auth_states handle = some a →
        (recordAuthAttempt snow st handle).auth_states =
          alistSet st.auth_states handle { timestamp := snow, attempts := (a.attempts + 1) % 256 }) := by
  unfold recordAuthAttempt
  rcases hget : alistGet st.auth_states handle with _ | a
  · exact ⟨rfl, rfl, rfl, rfl, rfl, rfl, fun b hb => Option.noConfusion hb⟩
  · refine ⟨rfl, rfl, rfl, rfl, rfl, rfl, fun b hb => ?_⟩
    injection hb with hab
    subst hab
    rfl

/-- The AUTH handler, reduced on the path where the packet is complete and the
peer stands in the Challenged state: it scans the window and either accepts or
records the attempt. -/
theorem handleUDPAuthResponse_reduce (hmac dk : List Nat → List Nat → List Nat)
    (env : Option (List Nat)) (ip : List Nat) (now snow : Nat) (st : GSState)
    (handle : Nat) (data : List Nat) (off cid : Nat) (cs : ClientState)
    (hlen : off + 33 ≤ data.length)
    (hcs : alistGet st.client_states handle = some cs)
    (hch : cs.authState = .CHALLENGED) :
    handleUDPAuthResponse hmac dk env ip now snow st handle data off cid =
      match authScan (cookieCheck hmac (authSecret env) ip (data.getD off 0)
          ((data.drop (off + 1)).take 32)) now with
      | none => recordAuthAttempt snow st handle
      | some t => authAcceptedState dk env st handle cid cs t := by
  unfold handleUDPAuthResponse
  rw [if_neg (by omega : ¬ (off + 1 + 32 > data.length)), hcs]
  simp only [hch, authAcceptedState]
  rcases authScan (cookieCheck hmac (authSecret env) ip (data.getD off 0)
      ((data.drop (off + 1)).take 32)) now with _ | t <;> rfl

/-- C5: an AUTH from a Challenged peer with a complete packet is accepted if and
only if some timestamp in `[now - AUTH_TIMEOUT, now]` makes the keyed MAC
reproduce the echoed 32-byte cookie; on acceptance the session key head is the
HKDF output for the matching timestamp bytes, the state becomes Authenticated
and an AUTH_OK is queued; on rejection the handler only records the attempt. -/
theorem C5_auth_accept_iff (hmac dk : List Nat → List Nat → List Nat)
    (env : Option (List Nat)) (ip : List Nat) (now snow : Nat) (st : GSState)
    (handle : Nat) (data : List Nat) (off cid : Nat) (cs : ClientState)
    (hlen : off + 33 ≤ data.length)
    (hcs : alistGet st.client_states handle = some cs)
    (hch : cs.authState = .CHALLENGED)
    (hnow : AUTH_TIMEOUT ≤ now) (hnow2 : now < 2 ^ 64) :
    ((∃ t, now - AUTH_TIMEOUT ≤ t ∧ t ≤ now ∧
        cookieCheck hmac (authSecret env) ip (data.getD off 0)
          ((data.drop (off + 1)).take 32) t = true) ↔
      (alistGet (handleUDPAuthResponse hmac dk env ip now snow st handle data off cid).client_states
          handle).map ClientState.authState = some .AUTHENTICATED)
    ∧ (∀ t, authScan (cookieCheck hmac (authSecret env) ip (data.getD off 0)
          ((data.drop (off + 1)).take 32)) now = some t →
        cookieCheck hmac (authSecret env) ip (data.getD off 0)
          ((data.drop (off + 1)).take 32) t = true
        ∧ handleUDPAuthResponse hmac dk env ip now snow st handle data off cid =
            authAcceptedState dk env st handle cid cs t)
    ∧ (authScan (cookieCheck hmac (authSecret env) ip (data.getD off 0)
          ((data.drop (off + 1)).take 32)) now = none →
        handleUDPAuthResponse hmac dk env ip now snow st handle data off cid =
          recordAuthAttempt snow st handle) := by
  have hred := handleUDPAuthResponse_reduce hmac dk env ip now snow st handle data off cid cs
    hlen hcs hch
  refine ⟨?_, ?_, ?_⟩
  · rw [← authScan_isSome_iff_window _ now hnow hnow2, hred]
    rcases hscan : authScan (cookieCheck hmac (authSecret env) ip (data.getD off 0)
        ((data.drop (off + 1)).take 32)) now with _ | t
    · simp only [hscan, Option.isSome_none]
      constructor
      · intro hb; exact absurd hb (by simp)
      · intro hb
        rw [(recordAuthAttempt_spec snow st handle).1, hcs] at hb
        simp [hch] at hb
    · simp only [hscan, Option.isSome_some, true_iff]
      unfold authAcceptedState
      simp [alistGet_set_self]
  · intro t hscan
    obtain ⟨hc, _, _, _⟩ := authScanGo_eq_some _ now (AUTH_TIMEOUT + 1) 0 t hscan
    rw [hred, hscan]
    exact ⟨hc, rfl⟩
  · intro hscan
    rw [hred, hscan]

/-- C5, applied at a concrete Challenged peer and complete AUTH datagram. -/
theorem C5_auth_accept_iff_witness :
    (21 + 33 ≤ c5Data.length ∧ alistGet c5St.client_states 1 = some c5CS
      ∧ c5CS.authState = .CHALLENGED ∧ AUTH_TIMEOUT ≤ 100 ∧ 100 < 2 ^ 64)
    ∧ ((∃ t, 100 - AUTH_TIMEOUT ≤ t ∧ t ≤ 100 ∧
        cookieCheck c5Hmac (authSecret none) (List.replicate 16 0) (c5Data.getD 21 0)
          ((c5Data.drop (21 + 1)).take 32) t = true) ↔
      (alistGet (handleUDPAuthResponse c5Hmac c5Dk none (List.replicate 16 0) 100 50 c5St 1
          c5Data 21 7).client_states 1).map ClientState.authState = some .AUTHENTICATED) :=
  ⟨⟨by decide, by decide, by decide, by decide, by decide⟩,
    (C5_auth_accept_iff c5Hmac c5Dk none (List.replicate 16 0) 100 50 c5St 1 c5Data 21 7 c5CS
      (by decide) (by decide) (by decide) (by decide) (by decide)).1⟩

/-! ### C6: the per-peer auth state machine -/

/-- C6: the claim fails on the code.  A valid JOIN from an Authenticated peer
moves the session out of Authenticated: `handleUDPJoin` overwrites the client
state with a fresh Challenged one unconditionally. -/
theorem C6_join_resets_authenticated :
    (alistGet c6St.client_states 1).map ClientState.authState = some .AUTHENTICATED
    ∧ (alistGet (handleUDPJoin (fun _ _ => List.replicate 32 0) none (List.replicate 16 0)
          100 0 c6St 1 c6JoinData 21 7).client_states 1).map ClientState.authState =
        some .CHALLENGED
    ∧ AuthState.CHALLENGED ≠ AuthState.AUTHENTICATED :=
  ⟨by decide, by decide, by decide⟩

/-- C6 (amended): the machine still advances None → Challenged (valid JOIN) and
Challenged → Authenticated (valid AUTH), and AUTH frames arriving outside the
Challenged state are dropped without touching the state; but a valid JOIN forces
the peer to Challenged from every prior state, so Authenticated is also left by
processing a received JOIN, not only by timeout or eviction. -/
theorem C6_transitions :
    (∀ hmac env ip sysNow steadyNow st handle data offset clientId,
        offset + 6 ≤ data.length → be32at data offset = clientId →
        (alistGet (handleUDPJoin hmac env ip sysNow steadyNow st handle data offset
            clientId).client_states handle).map ClientState.authState = some .CHALLENGED)
    ∧ (∀ hmac dk env ip sysNow steadyNow st handle data offset clientId cs,
        alistGet st.client_states handle = some cs → cs.authState ≠ .CHALLENGED →
        handleUDPAuthResponse hmac dk env ip sysNow steadyNow st handle data offset clientId = st)
    ∧ (∀ hmac dk env ip sysNow steadyNow st handle data offset clientId,
        alistGet st.client_states handle = none →
        handleUDPAuthResponse hmac dk env ip sysNow steadyNow st handle data offset clientId
          = st) := by
  refine ⟨?_, ?_, ?_⟩
  · intro hmac env ip sysNow steadyNow st handle data offset clientId hlen hid
    simp only [handleUDPJoin]
    rw [if_neg (by omega)]
    rw [if_neg (by simp [hid])]
    simp [alistGetD, alistGet_set_self]
  · intro hmac dk env ip sysNow steadyNow st handle data offset clientId cs hcs hne
    by_cases hl : offset + 1 + 32 > data.length
    · simp [handleUDPAuthResponse, hl]
    · simp [handleUDPAuthResponse, hl, hcs, hne]
  · intro hmac dk env ip sysNow steadyNow st handle data offset clientId hcs
    by_cases hl : offset + 1 + 32 > data.length
    · simp [handleUDPAuthResponse, hl]
    · simp [handleUDPAuthResponse, hl, hcs]

/-- C6 amended, applied at a concrete valid JOIN over an Authenticated session
and a concrete AUTH in the wrong state. -/
theorem C6_transitions_witness :
    ((alistGet (handleUDPJoin (fun _ _ => List.replicate 32 0) none (List.replicate 16 0)
        100 0 c6St 1 c6JoinData 21 7).client_states 1).map ClientState.authState =
      some .CHALLENGED)
    ∧ handleUDPAuthResponse c5Hmac c5Dk none (List.replicate 16 0) 100 50 c6St 1 c5Data 21 7
        = c6St :=
  ⟨C6_transitions.1 (fun _ _ => List.replicate 32 0) none (List.replicate 16 0) 100 0 c6St 1
      c6JoinData 21 7 (by decide) (by decide),
   C6_transitions.2.1 c5Hmac c5Dk none (List.replicate 16 0) 100 50 c6St 1 c5Data 21 7
      ({ authState := .AUTHENTICATED, sessionKey := List.replicate 32 0 })
      (by decide) (by decide)⟩

/-! ### C7: the SACK window bookkeeping -/

/-- C7: the claim fails on the code.  `handleUDPInput` shifts a set bit into the
SACK byte on every arrival regardless of sequence numbers, so after receiving
998, 999, 1000, 1001, 1003, 1004 (1002 missing) the stored byte is 0b00111111,
not the claimed 0b11101111; moreover the handler reads the arriving sequence
from raw bytes 5..8 -- one byte into the ackbase field -- so the stored
`last_received_seq` is 257024 rather than any value near 1005.  The outbound
ackbits byte (as placed by `buildPongResponse`) is that stored byte. -/
theorem C7_sack_bits_eval :
    alistGetD c7Final.sack_bits 1 0 = 0b00111111
    ∧ alistGetD c7Final.last_received_seq 1 0 = 257024
    ∧ (GameServerUDP.buildPongResponse 5 (alistGetD c7Final.last_received_seq 1 0)
        (alistGetD c7Final.sack_bits 1 0) 7).getD 12 0 = 0b00111111
    ∧ ((0b00111111 : Nat) ≠ 0b11101111)
    ∧ ((257024 : Nat) ≠ 1005) :=
  ⟨by decide, by decide, by decide, by decide, by decide⟩

/-! ### C8: game-server registration -/

/-- C8: the claim fails on the code.  The first registration succeeds (GS_OK, 21)
and stores registry value 1 -- not occupancy zero -- for the key; repeating the
identical registration over the *same* handle 5 yields GS_KO (22), where the
claim promises GS_OK: the handler replies KO whenever the key is present,
without comparing handles. -/
theorem C8_same_handle_reregistration_ko :
    ((Gateway.handleGSRegistration {} 5 c8Data 4).map Prod.snd = some 21)
    ∧ (alistGet c8St1.gs_registry (Gateway.parseGSKey c8Data 5) = some 1)
    ∧ (alistGet c8St1.gs_addr_to_handle (Gateway.parseGSKey c8Data 5) = some 5)
    ∧ ((Gateway.handleGSRegistration c8St1 5 c8Data 4).map Prod.snd = some 22)
    ∧ ((22 : Nat) ≠ 21) ∧ ((1 : Nat) ≠ 0) :=
  ⟨by decide, by decide, by decide, by decide, by decide, by decide⟩

/-- C8 (amended): registration replies GS_KO exactly when the submitted key is
already present in the registry -- also when the repeat comes over the same
stream handle; otherwise it records the key-to-handle association and replies
GS_OK.  The registry value is set to 1 in both cases; the occupancy cache is
untouched, so the occupancy used for dispatch is zero for a key the cache does
not hold. -/
theorem C8_registration_spec (st : Gateway.GWState) (handle : Nat) (data : List Nat)
    (offset : Nat) (hlen : offset + 19 ≤ data.length) :
    ((Gateway.handleGSRegistration st handle data offset).map Prod.snd =
        some (if (alistGet st.gs_registry (Gateway.parseGSKey data (offset + 1))).isSome
          then 22 else 21))
    ∧ ((Gateway.handleGSRegistration st handle data offset).map
        (fun r => alistGet r.1.gs_registry (Gateway.parseGSKey data (offset + 1)))
          = some (some 1))
    ∧ ((Gateway.handleGSRegistration st handle data offset).map
        (fun r => r.1.occupancy_cache) = some st.occupancy_cache)
    ∧ ((alistGet st.gs_registry (Gateway.parseGSKey data (offset + 1))).isSome = false →
        (Gateway.handleGSRegistration st handle data offset).map
          (fun r => alistGet r.1.gs_addr_to_handle (Gateway.parseGSKey data (offset + 1)))
            = some (some handle))
    ∧ (alistGet st.occupancy_cache (Gateway.parseGSKey data (offset + 1)) = none →
        (Gateway.handleGSRegistration st handle data offset).map
          (fun r => Gateway.effectiveOccupancy r.1 (Gateway.parseGSKey data (offset + 1)))
            = some 0) := by
  have hif : ¬ (offset + 1 + 16 + 2 > data.length) := by omega
  by_cases har : (alistGet st.gs_registry (Gateway.parseGSKey data (offset + 1))).isSome <;>
    refine ⟨?_, ?_, ?_, ?_, ?_⟩ <;>
      simp [Gateway.handleGSRegistration, hif, har, alistGet_set_self,
        Gateway.effectiveOccupancy, alistGetD] <;>
    intro hocc <;> rw [hocc] <;> rfl

/-- C8 amended, applied at the first concrete registration. -/
theorem C8_registration_spec_witness :
    ((Gateway.handleGSRegistration {} 5 c8Data 4).map Prod.snd =
        some (if (alistGet (({} : Gateway.GWState)).gs_registry
            (Gateway.parseGSKey c8Data 5)).isSome then 22 else 21))
    ∧ ((Gateway.handleGSRegistration {} 5 c8Data 4).map
        (fun r => alistGet r.1.gs_registry (Gateway.parseGSKey c8Data 5)) = some (some 1))
    ∧ ((Gateway.handleGSRegistration {} 5 c8Data 4).map
        (fun r => r.1.occupancy_cache) = some ({} : Gateway.GWState).occupancy_cache)
    ∧ ((alistGet (({} : Gateway.GWState)).gs_registry
          (Gateway.parseGSKey c8Data 5)).isSome = false →
        (Gateway.handleGSRegistration {} 5 c8Data 4).map
          (fun r => alistGet r.1.gs_addr_to_handle (Gateway.parseGSKey c8Data 5))
            = some (some 5))
    ∧ (alistGet (({} : Gateway.GWState)).occupancy_cache (Gateway.parseGSKey c8Data 5) = none →
        (Gateway.handleGSRegistration {} 5 c8Data 4).map
          (fun r => Gateway.effectiveOccupancy r.1 (Gateway.parseGSKey c8Data 5)) = some 0) :=
  C8_registration_spec {} 5 c8Data 4 (by decide)

/-! ### C9: partial stream headers -/

/-- C9: the claim fails on the code.  A one-byte buffer makes `getHeader` throw
its incomplete-header error, and the catch of `_parsePackets` increments the
parse-error counter exactly as for malformed bytes (the claim says the counter
is unchanged).  The buffered byte does remain for the next receive, but the
third such pass crosses the quota and evicts the peer (the claim says eviction
never happens). -/
theorem C9_partial_header_counted :
    (Gateway.getHeader c9Buf 0 = (.incomplete, 0))
    ∧ (alistGetD c9St1.parseErrors 4 0 = 1)
    ∧ ((1 : Nat) ≠ 0)
    ∧ ((Gateway.parseStep {} 4 c9Buf).2.2 = c9Buf)
    ∧ ((Gateway.parseStep {} 4 c9Buf).2.1 = false)
    ∧ ((Gateway.parseStep c9St2 4 c9Buf).2.1 = true) :=
  ⟨by decide, by decide, by decide, by decide, by decide, by decide⟩

/-- C9 (amended): with fewer than 5 buffered bytes no frame is produced and the
bytes stay in the per-peer buffer, but the pass increments the parse-error
counter, and the eviction throw fires as soon as the incremented counter reaches
the quota of 3. -/
theorem C9_partial_header_spec (st : Gateway.GWState) (handle : Nat) (buf : List Nat)
    (h : buf.length < 5) :
    (Gateway.parseStep st handle buf).1.parseErrors =
        alistSet st.parseErrors handle (alistGetD st.parseErrors handle 0 + 1)
    ∧ (Gateway.parseStep st handle buf).2.2 = buf
    ∧ ((Gateway.parseStep st handle buf).2.1 = true ↔
        Gateway.GW_MAX_PARSE_ERRORS ≤ alistGetD st.parseErrors handle 0 + 1) := by
  have hh : Gateway.getHeader buf 0 = (.incomplete, 0) := by
    unfold Gateway.getHeader
    rw [if_pos (by omega)]
  unfold Gateway.parseStep
  rw [hh]
  exact ⟨rfl, List.drop_zero buf, by simp⟩

/-- C9 amended, applied at a concrete two-byte buffer. -/
theorem C9_partial_header_spec_witness :
    (Gateway.parseStep {} 6 [0x42, 0x57]).1.parseErrors =
        alistSet ({} : Gateway.GWState).parseErrors 6
          (alistGetD ({} : Gateway.GWState).parseErrors 6 0 + 1)
    ∧ (Gateway.parseStep {} 6 [0x42, 0x57]).2.2 = [0x42, 0x57]
    ∧ ((Gateway.parseStep {} 6 [0x42, 0x57]).2.1 = true ↔
        Gateway.GW_MAX_PARSE_ERRORS ≤ alistGetD ({} : Gateway.GWState).parseErrors 6 0 + 1) :=
  C9_partial_header_spec {} 6 [0x42, 0x57] (by decide)

/-! ### C10: JOIN client-id cross-check -/

/-- C10: a JOIN whose 32-bit payload client id differs from the header client id
is dropped before any state is created or modified and before any CHALLENGE is
queued: the handler returns the state unchanged. -/
theorem C10_join_id_mismatch_dropped (hmac : List Nat → List Nat → List Nat)
    (env : Option (List Nat)) (ip : List Nat) (sysNow steadyNow : Nat) (st : GSState)
    (handle : Nat) (data : List Nat) (offset clientId : Nat)
    (hlen : offset + 6 ≤ data.length) (hne : be32at data offset ≠ clientId) :
    handleUDPJoin hmac env ip sysNow steadyNow st handle data offset clientId = st := by
  simp [handleUDPJoin, hne, show ¬ (offset + 6 > data.length) by omega]

/-- C10, applied at a concrete JOIN carrying payload id 7 under header id 8. -/
theorem C10_join_id_mismatch_witness :
    21 + 6 ≤ c2JoinData.length ∧ be32at c2JoinData 21 ≠ 8
    ∧ handleUDPJoin (fun _ _ => []) none [] 0 0 {} 1 c2JoinData 21 8 = {} :=
  ⟨by decide, by decide,
    C10_join_id_mismatch_dropped (fun _ _ => []) none [] 0 0 {} 1 c2JoinData 21 8
      (by decide) (by decide)⟩

end RTypeSrv
